import Mathlib

set_option autoImplicit false

namespace PromptYoSelf

/-!
Verification of the promptyoself scheduling engine
(`smcp/plugins/promptyoself/{db,scheduler,cli}.py`).

Instants are modelled as natural numbers (seconds since an arbitrary epoch)
except in the cron calculator, which works at minute granularity as cron does.
All calls to `datetime.utcnow()` inside one registration call or one execution
pass are modelled as the single reference instant `now` of that call.
-/

/-- The `schedules` table row, `db.PromptSchedule` (db.py lines 15-25).
Note the model declares no `repetition_count` and no `max_repetitions`
column, although scheduler.py and cli.py refer to such attributes. -/
structure PromptSchedule where
  id : Nat
  agent_id : String
  prompt_text : String
  schedule_type : String
  schedule_value : String
  next_run : Nat
  active : Bool
  created_at : Nat
  last_run : Option Nat
deriving Repr, DecidableEq

/-- The schedule store: the list of rows plus the next autoincrement id. -/
structure Store where
  schedules : List PromptSchedule
  nextId : Nat
deriving Repr, DecidableEq

def emptyStore : Store := ⟨[], 1⟩

/-- db.add_schedule (db.py lines 37-53): inserts a row with `active`
defaulting to true and `last_run` null, returning the new id.
Its signature takes exactly agent_id, prompt_text, schedule_type,
schedule_value and next_run; there is no max_repetitions parameter. -/
def add_schedule (st : Store) (agent_id prompt_text schedule_type schedule_value : String)
    (next_run : Nat) (now : Nat) : Store × Nat :=
  let s : PromptSchedule :=
    { id := st.nextId, agent_id := agent_id, prompt_text := prompt_text,
      schedule_type := schedule_type, schedule_value := schedule_value,
      next_run := next_run, active := true, created_at := now, last_run := none }
  ({ schedules := st.schedules ++ [s], nextId := st.nextId + 1 }, st.nextId)

/-- db.get_schedule (db.py lines 83-89): first row with the given id. -/
def get_schedule (st : Store) (schedule_id : Nat) : Option PromptSchedule :=
  st.schedules.find? (fun s => s.id == schedule_id)

/-- The keyword arguments passed to db.update_schedule by the engine and by
cancel: each field is `some v` when the corresponding key is present.
The schedules table has no repetition_count column, so that key (written by
the dead success path of scheduler.py) would not be persisted; applyUpdate
ignores it. -/
structure UpdateData where
  last_run : Option Nat := none
  repetition_count : Option Nat := none
  next_run : Option Nat := none
  active : Option Bool := none
deriving Repr, DecidableEq

/-- setattr of the present update keys onto a row (db.py lines 99-100). -/
def applyUpdate (s : PromptSchedule) (u : UpdateData) : PromptSchedule :=
  { s with
    last_run := match u.last_run with | some v => some v | none => s.last_run,
    next_run := u.next_run.getD s.next_run,
    active := u.active.getD s.active }

/-- Updates the first row carrying the given id, like the
`filter(...).first()` query of db.update_schedule. -/
def updateFirst : List PromptSchedule → Nat → UpdateData → Option (List PromptSchedule)
  | [], _, _ => none
  | s :: rest, i, u =>
    if s.id = i then some (applyUpdate s u :: rest)
    else (updateFirst rest i u).map (fun l => s :: l)

/-- db.update_schedule (db.py lines 91-105): returns false when the id is
unknown, otherwise applies the field updates and returns true. -/
def update_schedule (st : Store) (schedule_id : Nat) (u : UpdateData) : Store × Bool :=
  match updateFirst st.schedules schedule_id u with
  | some l2 => ({ st with schedules := l2 }, true)
  | none => (st, false)

/-- db.cancel_schedule (db.py lines 107-109): update with active=False. -/
def cancel_schedule (st : Store) (schedule_id : Nat) : Store × Bool :=
  update_schedule st schedule_id { active := some false }

/-- db.get_due_schedules (db.py lines 111-121): active rows whose next_run
has passed, in store order. -/
def get_due_schedules (st : Store) (now : Nat) : List PromptSchedule :=
  st.schedules.filter (fun s => s.active && s.next_run ≤ now)

/-- Outcome of one call to letta_client.send_prompt_to_agent: the gateway
returns a boolean, or the call raises (as the unit tests simulate). -/
inductive DeliveryOutcome where
  | ok : DeliveryOutcome
  | failed : DeliveryOutcome
  | raised : String → DeliveryOutcome
deriving Repr, DecidableEq

/-- The delivery gateway, keyed by (agent_id, prompt_text). -/
abbrev Gateway := String → String → DeliveryOutcome

/-- Evaluates the gateway call of scheduler.py line 64 in the exception
monad of the surrounding try block. -/
def sendResult (gw : Gateway) (s : PromptSchedule) : Except String Bool :=
  match gw s.agent_id s.prompt_text with
  | .ok => Except.ok true
  | .failed => Except.ok false
  | .raised msg => Except.error msg

/-- Python str.endswith with a single-character suffix: the last character
equals it. -/
def strEndsWithChar (s : String) (c : Char) : Bool :=
  s.data.getLast? == some c

/-- Python s[:-1]. -/
def strDropLast (s : String) : String :=
  ⟨s.data.dropLast⟩

def charDigit (c : Char) : Nat := c.toNat - 48

/-- Decimal parse of a digit string, the fragment of Python int() that the
interval grammar of the spec uses (a positive integer literal). -/
def strToNat? (s : String) : Option Nat :=
  if !s.data.isEmpty && s.data.all Char.isDigit then
    some (s.data.foldl (fun n c => n * 10 + charDigit c) 0)
  else none

/-- Python int() on such a string, raising ValueError otherwise. -/
def pyInt (s : String) : Except String Nat :=
  match strToNat? s with
  | some n => Except.ok n
  | none => Except.error ("invalid literal for int() with base 10: " ++ s)

/-- The interval parsing of scheduler.py lines 38-46 (shared verbatim with
cli.py lines 78-85): suffix s, m or h, a bare number meaning seconds. -/
def intervalSeconds (interval_str : String) : Except String Nat :=
  if strEndsWithChar interval_str 's' then
    pyInt (strDropLast interval_str)
  else if strEndsWithChar interval_str 'm' then
    (pyInt (strDropLast interval_str)).map (fun n => n * 60)
  else if strEndsWithChar interval_str 'h' then
    (pyInt (strDropLast interval_str)).map (fun n => n * 3600)
  else
    pyInt interval_str

/-- scheduler.calculate_next_run_for_schedule (scheduler.py lines 29-50).
The croniter library is an external dependency, passed in as the oracle
croniterNext; `now` stands for the datetime.utcnow() of line 48. -/
def calculate_next_run_for_schedule (croniterNext : String → Nat → Except String Nat)
    (now : Nat) (schedule : PromptSchedule) : Except String (Option Nat) :=
  if schedule.schedule_type = "once" then
    Except.ok none
  else if schedule.schedule_type = "cron" then
    (croniterNext schedule.schedule_value now).map some
  else if schedule.schedule_type = "interval" then
    (intervalSeconds schedule.schedule_value).map (fun secs => some (now + secs))
  else
    Except.error ("ValueError: Unknown schedule type: " ++ schedule.schedule_type)

/-- scheduler.py line 73 reads schedule.repetition_count. The PromptSchedule
model (db.py lines 15-25) declares no such column or attribute, so in Python
that attribute lookup raises AttributeError, which the per-schedule handler
at line 112 catches. -/
def repetitionCountAttrError : String :=
  "AttributeError: PromptSchedule object has no attribute repetition_count"

def getattrRepetitionCount (_ : PromptSchedule) : Except String Nat :=
  Except.error repetitionCountAttrError

/-- scheduler.py line 77 reads schedule.max_repetitions, likewise absent
from the model. (Unreachable: line 73 already raises.) -/
def getattrMaxRepetitions (_ : PromptSchedule) : Except String (Option Nat) :=
  Except.error "AttributeError: PromptSchedule object has no attribute max_repetitions"

/-- One entry of the executed list built by execute_due_prompts; an Option
field is `none` when the corresponding dict key is absent on that path. -/
structure ExecResult where
  id : Nat
  agent_id : String
  delivered : Bool
  error : Option String := none
  next_run : Option Nat := none
  repetition_count : Option Nat := none
  max_repetitions : Option (Option Nat) := none
  completed : Option Bool := none
deriving Repr, DecidableEq

/-- The body of the per-schedule try block of execute_due_prompts
(scheduler.py lines 60-110), returning the appended result entry and the
update_data dict, or the exception that escaped the body. -/
def executeAttempt (gw : Gateway) (croniterNext : String → Nat → Except String Nat)
    (now : Nat) (schedule : PromptSchedule) : Except String (ExecResult × UpdateData) := do
  let success ← sendResult gw schedule
  let update_data : UpdateData := { last_run := some now }
  if success then
    let rep ← getattrRepetitionCount schedule
    let new_repetition_count := rep + 1
    let update_data := { update_data with repetition_count := some new_repetition_count }
    let max_repetitions ← getattrMaxRepetitions schedule
    let capReached := match max_repetitions with
      | some maxr => decide (new_repetition_count ≥ maxr)
      | none => false
    if capReached then
      let update_data := { update_data with active := some false }
      pure ({ id := schedule.id, agent_id := schedule.agent_id, delivered := true,
              next_run := none, repetition_count := some new_repetition_count,
              max_repetitions := some max_repetitions, completed := some capReached },
            update_data)
    else
      let next_runOpt ← calculate_next_run_for_schedule croniterNext now schedule
      let update_data := match next_runOpt with
        | some nr => { update_data with next_run := some nr }
        | none => { update_data with active := some false }
      pure ({ id := schedule.id, agent_id := schedule.agent_id, delivered := true,
              next_run := next_runOpt, repetition_count := some new_repetition_count,
              max_repetitions := some max_repetitions, completed := some capReached },
            update_data)
  else
    pure ({ id := schedule.id, agent_id := schedule.agent_id, delivered := false,
            error := some "Failed to deliver prompt", next_run := some schedule.next_run },
          update_data)

/-- The result entry appended by the except handler, scheduler.py lines 114-120. -/
def errorResult (schedule : PromptSchedule) (e : String) : ExecResult :=
  { id := schedule.id, agent_id := schedule.agent_id, delivered := false,
    error := some e, next_run := some schedule.next_run }

/-- Processing of one due schedule: append a result and, when the try body
completed, persist update_data via update_schedule (scheduler.py line 110). -/
def executeStep (gw : Gateway) (croniterNext : String → Nat → Except String Nat)
    (now : Nat) (st : Store) (schedule : PromptSchedule) : ExecResult × Store :=
  match executeAttempt gw croniterNext now schedule with
  | Except.ok (res, upd) => (res, (update_schedule st schedule.id upd).1)
  | Except.error e => (errorResult schedule e, st)

/-- The result entry contributed by one schedule, independent of the store. -/
def resultOf (gw : Gateway) (croniterNext : String → Nat → Except String Nat)
    (now : Nat) (schedule : PromptSchedule) : ExecResult :=
  match executeAttempt gw croniterNext now schedule with
  | Except.ok (res, _) => res
  | Except.error e => errorResult schedule e

def passStep (gw : Gateway) (croniterNext : String → Nat → Except String Nat) (now : Nat)
    (acc : List ExecResult × Store) (schedule : PromptSchedule) : List ExecResult × Store :=
  (acc.1 ++ [(executeStep gw croniterNext now acc.2 schedule).1],
   (executeStep gw croniterNext now acc.2 schedule).2)

/-- scheduler.execute_due_prompts (scheduler.py lines 52-122): fetch the due
set once, then process each due schedule in order. -/
def execute_due_prompts (gw : Gateway) (croniterNext : String → Nat → Except String Nat)
    (now : Nat) (st : Store) : List ExecResult × Store :=
  (get_due_schedules st now).foldl (passStep gw croniterNext now) ([], st)

/-! ## The CLI registration path (cli.py register_prompt, lines 25-123) -/

/-- The arguments dict of register_prompt; a missing key is `none`.
max_repetitions arrives from argparse already converted to int. -/
structure RegisterArgs where
  agent_id : Option String := none
  prompt : Option String := none
  time : Option String := none
  cron : Option String := none
  every : Option String := none
  skip_validation : Bool := false
  max_repetitions : Option Int := none
  start_at : Option String := none
deriving Repr, DecidableEq

/-- Python truthiness of an optional string argument. -/
def truthyStr : Option String → Bool
  | none => false
  | some s => !s.data.isEmpty

inductive RegResult where
  | ok (id : Nat) (next_run : Nat) (message : String)
  | err (msg : String)
deriving Repr, DecidableEq

/-- The once branch, cli.py lines 53-60. A parse error is a ValueError that
escapes to the outer handler of line 122. -/
def onceBranch (parseDate : String → Except String Nat) (now : Nat) (time_str : String) :
    Except String (String × String × Nat) :=
  match parseDate time_str with
  | Except.error e => Except.error ("Failed to register prompt: " ++ e)
  | Except.ok next_run =>
    if next_run ≤ now then Except.error "Scheduled time must be in the future"
    else Except.ok ("once", time_str, next_run)

/-- The cron branch, cli.py lines 62-69. -/
def cronBranch (cronValid : String → Bool) (croniterNext : String → Nat → Except String Nat)
    (now : Nat) (cron_expr : String) : Except String (String × String × Nat) :=
  if !cronValid cron_expr then Except.error ("Invalid cron expression: " ++ cron_expr)
  else match croniterNext cron_expr now with
    | Except.error e => Except.error ("Failed to register prompt: " ++ e)
    | Except.ok next_run => Except.ok ("cron", cron_expr, next_run)

/-- The every branch, cli.py lines 71-95. Both int() and a failing
date_parser.parse of start_at raise ValueError inside the inner try, so both
land in the handler of line 94. -/
def everyBranch (parseDate : String → Except String Nat) (now : Nat)
    (every_str : String) (start_at : Option String) : Except String (String × String × Nat) :=
  match intervalSeconds every_str with
  | Except.error _ =>
    Except.error ("Invalid interval format: " ++ every_str ++ ". Use formats like 30s, 5m, 1h")
  | Except.ok seconds =>
    match start_at with
    | some sa =>
      if sa.data.isEmpty then Except.ok ("interval", every_str, now + seconds)
      else
        match parseDate sa with
        | Except.error _ =>
          Except.error ("Invalid interval format: " ++ every_str ++ ". Use formats like 30s, 5m, 1h")
        | Except.ok next_run =>
          if next_run ≤ now then Except.error "Start time must be in the future"
          else Except.ok ("interval", every_str, next_run)
    | none => Except.ok ("interval", every_str, now + seconds)

/-- Argument and schedule validation of register_prompt (cli.py lines 27-104),
up to but excluding the add_schedule call of line 106. validateResult is the
outcome of the external validate_agent_exists collaborator (none on success);
parseDate models dateutil, cronValid and croniterNext model croniter. On
success it yields (schedule_type, schedule_value, next_run). -/
def registerValidate (validateResult : Option String) (parseDate : String → Except String Nat)
    (cronValid : String → Bool) (croniterNext : String → Nat → Except String Nat)
    (now : Nat) (args : RegisterArgs) : Except String (String × String × Nat) :=
  if !truthyStr args.agent_id || !truthyStr args.prompt then
    Except.error "Missing required arguments: agent-id and prompt"
  else
    let schedule_options :=
      (truthyStr args.time).toNat + (truthyStr args.cron).toNat + (truthyStr args.every).toNat
    if schedule_options = 0 then Except.error "Must specify one of --time, --cron, or --every"
    else if schedule_options > 1 then Except.error "Cannot specify multiple scheduling options"
    else
      match (if args.skip_validation then none else validateResult) with
      | some vmsg => Except.error ("Agent validation failed: " ++ vmsg)
      | none =>
        let core :=
          if truthyStr args.time then onceBranch parseDate now (args.time.getD "")
          else if truthyStr args.cron then
            cronBranch cronValid croniterNext now (args.cron.getD "")
          else everyBranch parseDate now (args.every.getD "") args.start_at
        match core with
        | Except.error e => Except.error e
        | Except.ok v =>
          match args.max_repetitions with
          | some mr =>
            if mr ≤ 0 then Except.error "max-repetitions must be a positive integer"
            else Except.ok v
          | none => Except.ok v

/-- The message of the TypeError raised at cli.py line 106: add_schedule is
called with keyword argument max_repetitions, which db.add_schedule
(db.py line 37) does not accept. (Python renders the argument name inside
quotes; the quotes are elided here.) -/
def addScheduleTypeError : String :=
  "add_schedule() got an unexpected keyword argument max_repetitions"

/-- cli.register_prompt (cli.py lines 25-123). Whenever validation passes,
the add_schedule call of line 106 raises TypeError before any store
mutation, and the handler of line 122 converts it to an error object. -/
def register_prompt (validateResult : Option String) (parseDate : String → Except String Nat)
    (cronValid : String → Bool) (croniterNext : String → Nat → Except String Nat)
    (now : Nat) (st : Store) (args : RegisterArgs) : RegResult × Store :=
  match registerValidate validateResult parseDate cronValid croniterNext now args with
  | Except.error msg => (RegResult.err msg, st)
  | Except.ok _ =>
    (RegResult.err ("Failed to register prompt: " ++ addScheduleTypeError), st)

/-! ## The CLI cancel path (cli.py cancel_prompt, lines 151-174) -/

inductive CancelResult where
  | ok (cancelled_id : Nat) (message : String)
  | err (msg : String)
deriving Repr, DecidableEq

/-- cli.cancel_prompt: parse the id, call cancel_schedule, and report
success or a not-found error. -/
def cancel_prompt (st : Store) (idArg : Option String) : CancelResult × Store :=
  match idArg with
  | none => (CancelResult.err "Missing required argument: id", st)
  | some idStr =>
    if idStr.data.isEmpty then (CancelResult.err "Missing required argument: id", st)
    else
      match strToNat? idStr with
      | none => (CancelResult.err "Schedule ID must be a number", st)
      | some schedule_id =>
        match cancel_schedule st schedule_id with
        | (st2, true) =>
          (CancelResult.ok schedule_id ("Schedule " ++ toString schedule_id ++ " cancelled"), st2)
        | (st2, false) =>
          (CancelResult.err ("Schedule " ++ toString schedule_id ++ " not found or already cancelled"),
           st2)

/-! ## Next-Run Calculator, Cron kind

Modelled from the spec: the cron arithmetic behind
scheduler.calculate_next_run (scheduler.py lines 21-27) lives in the external
croniter library, which is not part of this repository. Following spec.md
sections 4.1 and 8, a five-field cron expression is five sets of allowed
values (minute, hour, day-of-month, month, day-of-week), an instant is a
number of minutes since 2000-01-01 00:00 UTC (a Saturday, day-of-week 6 in
cron numbering where 0 is Sunday), an instant matches the expression when
every field of its UTC calendar decomposition belongs to the corresponding
set, and compute_next(Cron, e, t) is the earliest instant strictly after t
matching e. The search horizon is one full 400-year Gregorian cycle of
146097 days; the calendar decomposition repeats with that period, so an
expression matching any instant at all matches one inside the horizon. -/

structure CronExpr where
  minute : List Nat
  hour : List Nat
  dom : List Nat
  month : List Nat
  dow : List Nat
deriving Repr, DecidableEq

/-- Syntactic validity of the five fields: each set nonempty and within its
cron range. -/
def validCron (e : CronExpr) : Bool :=
  (!e.minute.isEmpty && e.minute.all (fun x => x ≤ 59)) &&
  (!e.hour.isEmpty && e.hour.all (fun x => x ≤ 23)) &&
  (!e.dom.isEmpty && e.dom.all (fun x => 1 ≤ x && x ≤ 31)) &&
  (!e.month.isEmpty && e.month.all (fun x => 1 ≤ x && x ≤ 12)) &&
  (!e.dow.isEmpty && e.dow.all (fun x => x ≤ 6))

def isLeap (y : Nat) : Bool :=
  y % 4 == 0 && (y % 100 != 0 || y % 400 == 0)

def daysInMonth (y m : Nat) : Nat :=
  if m = 2 then (if isLeap y then 29 else 28)
  else if m = 4 ∨ m = 6 ∨ m = 9 ∨ m = 11 then 30
  else 31

structure Date where
  year : Nat
  month : Nat
  day : Nat
deriving Repr, DecidableEq

def epochDate : Date := ⟨2000, 1, 1⟩

def nextDay (d : Date) : Date :=
  if d.day < daysInMonth d.year d.month then ⟨d.year, d.month, d.day + 1⟩
  else if d.month < 12 then ⟨d.year, d.month + 1, 1⟩
  else ⟨d.year + 1, 1, 1⟩

/-- UTC calendar date of day number n (days since the epoch). -/
def dateOfDay : Nat → Date
  | 0 => epochDate
  | n + 1 => nextDay (dateOfDay n)

/-- Cron day-of-week (0 = Sunday) of day number n; the epoch is a Saturday. -/
def dowOfDay (n : Nat) : Nat := (n + 6) % 7

/-- An instant (minutes since the epoch) matches the expression when all
five fields of its UTC decomposition are allowed. -/
def cronMatches (e : CronExpr) (t : Nat) : Bool :=
  decide (t % 60 ∈ e.minute) && decide (t / 60 % 24 ∈ e.hour) &&
  decide ((dateOfDay (t / 1440)).day ∈ e.dom) &&
  decide ((dateOfDay (t / 1440)).month ∈ e.month) &&
  decide (dowOfDay (t / 1440) ∈ e.dow)

/-- Linear search for the first matching instant strictly after t, giving up
after fuel minutes. -/
def cronSearch (e : CronExpr) : Nat → Nat → Option Nat
  | 0, _ => none
  | fuel + 1, t => if cronMatches e (t + 1) then some (t + 1) else cronSearch e fuel (t + 1)

/-- One 400-year Gregorian cycle, in minutes. -/
def cronHorizon : Nat := 146097 * 1440

/-- compute_next(Cron, e, t): the earliest instant strictly after t matching
e, searched over one full calendar cycle; none when the expression matches
no instant (for example day 31 of February). -/
def cron_compute_next (e : CronExpr) (t : Nat) : Option Nat :=
  cronSearch e cronHorizon t

/-! ## Store lemmas -/

theorem applyUpdate_id (s : PromptSchedule) (u : UpdateData) : (applyUpdate s u).id = s.id := rfl

theorem updateFirst_of_find (i : Nat) (u : UpdateData) :
    ∀ (l : List PromptSchedule) (x : PromptSchedule),
      l.find? (fun s => s.id == i) = some x →
      ∃ l2, updateFirst l i u = some l2 ∧
        l2.find? (fun s => s.id == i) = some (applyUpdate x u) ∧
        ∀ j, j ≠ i → l2.find? (fun s => s.id == j) = l.find? (fun s => s.id == j) := by
  intro l
  induction l with
  | nil => intro x hx; simp [List.find?] at hx
  | cons a l ih =>
    intro x hx
    by_cases ha : a.id = i
    · rw [List.find?_cons_of_pos _ (by simp [ha])] at hx
      refine ⟨applyUpdate a u :: l, ?_, ?_, ?_⟩
      · simp [updateFirst, ha]
      · cases hx
        rw [List.find?_cons_of_pos _ (by simp [applyUpdate_id, ha])]
      · intro j hj
        rw [List.find?_cons_of_neg _ (by simp [applyUpdate_id, ha, Ne.symm hj]),
          List.find?_cons_of_neg _ (by simp [ha, Ne.symm hj])]
    · rw [List.find?_cons_of_neg _ (by simp [ha])] at hx
      obtain ⟨l2, h1, h2, h3⟩ := ih x hx
      refine ⟨a :: l2, ?_, ?_, ?_⟩
      · simp [updateFirst, ha, h1]
      · rw [List.find?_cons_of_neg _ (by simp [ha])]; exact h2
      · intro j hj
        by_cases haj : a.id = j
        · rw [List.find?_cons_of_pos _ (by simp [haj]), List.find?_cons_of_pos _ (by simp [haj])]
        · rw [List.find?_cons_of_neg _ (by simp [haj]), List.find?_cons_of_neg _ (by simp [haj])]
          exact h3 j hj

theorem updateFirst_of_find_none (i : Nat) (u : UpdateData) :
    ∀ (l : List PromptSchedule), l.find? (fun s => s.id == i) = none →
      updateFirst l i u = none := by
  intro l
  induction l with
  | nil => intro _; rfl
  | cons a l ih =>
    intro hx
    by_cases ha : a.id = i
    · rw [List.find?_cons_of_pos _ (by simp [ha])] at hx; cases hx
    · rw [List.find?_cons_of_neg _ (by simp [ha])] at hx
      simp [updateFirst, ha, ih hx]

theorem update_schedule_of_get (st : Store) (i : Nat) (u : UpdateData) (x : PromptSchedule)
    (h : get_schedule st i = some x) :
    (update_schedule st i u).2 = true ∧
    get_schedule (update_schedule st i u).1 i = some (applyUpdate x u) ∧
    ∀ j, j ≠ i → get_schedule (update_schedule st i u).1 j = get_schedule st j := by
  obtain ⟨l2, h1, h2, h3⟩ := updateFirst_of_find i u st.schedules x h
  unfold update_schedule
  rw [h1]
  exact ⟨rfl, h2, fun j hj => h3 j hj⟩

theorem update_schedule_other (st : Store) (i : Nat) (u : UpdateData) (j : Nat) (hj : j ≠ i) :
    get_schedule (update_schedule st i u).1 j = get_schedule st j := by
  cases h : get_schedule st i with
  | none =>
    unfold update_schedule
    rw [updateFirst_of_find_none i u st.schedules h]
  | some x => exact (update_schedule_of_get st i u x h).2.2 j hj

theorem find_of_mem_nodup :
    ∀ (l : List PromptSchedule), (l.map (fun s => s.id)).Nodup →
      ∀ s ∈ l, l.find? (fun x => x.id == s.id) = some s := by
  intro l
  induction l with
  | nil => intro _ s hs; cases hs
  | cons a l ih =>
    intro hnd s hs
    rcases List.mem_cons.mp hs with rfl | hs2
    · exact List.find?_cons_of_pos _ (by simp)
    · have hna : a.id ≠ s.id := by
        intro heq
        have : s.id ∈ l.map (fun x => x.id) := List.mem_map_of_mem _ hs2
        rw [List.map_cons, List.nodup_cons] at hnd
        exact hnd.1 (heq ▸ this)
      rw [List.find?_cons_of_neg _ (by simp [hna])]
      exact ih (by rw [List.map_cons, List.nodup_cons] at hnd; exact hnd.2) s hs2

/-! ## Execution engine lemmas -/

theorem executeAttempt_failed (gw : Gateway) (cn : String → Nat → Except String Nat)
    (now : Nat) (s : PromptSchedule) (h : gw s.agent_id s.prompt_text = DeliveryOutcome.failed) :
    executeAttempt gw cn now s = Except.ok
      ({ id := s.id, agent_id := s.agent_id, delivered := false,
         error := some "Failed to deliver prompt", next_run := some s.next_run },
       { last_run := some now }) := by
  unfold executeAttempt sendResult
  rw [h]
  exact rfl

theorem executeAttempt_success (gw : Gateway) (cn : String → Nat → Except String Nat)
    (now : Nat) (s : PromptSchedule) (h : gw s.agent_id s.prompt_text = DeliveryOutcome.ok) :
    executeAttempt gw cn now s = Except.error repetitionCountAttrError := by
  unfold executeAttempt sendResult
  rw [h]
  exact rfl

theorem executeAttempt_raised (gw : Gateway) (cn : String → Nat → Except String Nat)
    (now : Nat) (s : PromptSchedule) (msg : String)
    (h : gw s.agent_id s.prompt_text = DeliveryOutcome.raised msg) :
    executeAttempt gw cn now s = Except.error msg := by
  unfold executeAttempt sendResult
  rw [h]
  exact rfl

theorem resultOf_error (gw : Gateway) (cn : String → Nat → Except String Nat)
    (now : Nat) (s : PromptSchedule) (e : String)
    (h : executeAttempt gw cn now s = Except.error e) :
    resultOf gw cn now s = errorResult s e := by
  unfold resultOf
  rw [h]

theorem executeStep_fst (gw : Gateway) (cn : String → Nat → Except String Nat)
    (now : Nat) (st : Store) (s : PromptSchedule) :
    (executeStep gw cn now st s).1 = resultOf gw cn now s := by
  unfold executeStep resultOf
  cases executeAttempt gw cn now s with
  | ok p => rfl
  | error e => rfl

/-- The store after processing one due schedule. -/
def storeStep (gw : Gateway) (cn : String → Nat → Except String Nat) (now : Nat)
    (st : Store) (s : PromptSchedule) : Store :=
  (executeStep gw cn now st s).2

theorem fold_pair (gw : Gateway) (cn : String → Nat → Except String Nat) (now : Nat) :
    ∀ (L : List PromptSchedule) (acc : List ExecResult) (st : Store),
      L.foldl (passStep gw cn now) (acc, st) =
        (acc ++ L.map (resultOf gw cn now), L.foldl (storeStep gw cn now) st) := by
  intro L
  induction L with
  | nil => intro acc st; simp
  | cons a L ih =>
    intro acc st
    have hstep : passStep gw cn now (acc, st) a =
        (acc ++ [resultOf gw cn now a], storeStep gw cn now st a) := by
      unfold passStep storeStep
      rw [executeStep_fst]
    rw [List.foldl_cons, hstep, ih]
    simp

theorem storeStep_other (gw : Gateway) (cn : String → Nat → Except String Nat)
    (now : Nat) (st : Store) (s : PromptSchedule) (j : Nat) (hj : j ≠ s.id) :
    get_schedule (storeStep gw cn now st s) j = get_schedule st j := by
  unfold storeStep executeStep
  cases executeAttempt gw cn now s with
  | ok p => exact update_schedule_other st s.id p.2 j hj
  | error e => rfl

theorem foldStore_other (gw : Gateway) (cn : String → Nat → Except String Nat) (now : Nat) :
    ∀ (L : List PromptSchedule) (st : Store) (j : Nat), (∀ x ∈ L, j ≠ x.id) →
      get_schedule (L.foldl (storeStep gw cn now) st) j = get_schedule st j := by
  intro L
  induction L with
  | nil => intro st j _; rfl
  | cons a L ih =>
    intro st j hj
    rw [List.foldl_cons, ih _ j (fun x hx => hj x (List.mem_cons_of_mem a hx)),
      storeStep_other gw cn now st a j (hj a (List.mem_cons_self a L))]

theorem foldStore_failed (gw : Gateway) (cn : String → Nat → Except String Nat) (now : Nat) :
    ∀ (L : List PromptSchedule) (st : Store) (s : PromptSchedule),
      s ∈ L → (L.map (fun x => x.id)).Nodup →
      get_schedule st s.id = some s →
      gw s.agent_id s.prompt_text = DeliveryOutcome.failed →
      get_schedule (L.foldl (storeStep gw cn now) st) s.id = some { s with last_run := some now } := by
  intro L
  induction L with
  | nil => intro st s hs; cases hs
  | cons a L ih =>
    intro st s hs hnd hget hfail
    rw [List.map_cons, List.nodup_cons] at hnd
    rcases List.mem_cons.mp hs with rfl | hs2
    · have hstep : storeStep gw cn now st s = (update_schedule st s.id { last_run := some now }).1 := by
        unfold storeStep executeStep
        rw [executeAttempt_failed gw cn now s hfail]
      have hupd := (update_schedule_of_get st s.id { last_run := some now } s hget).2.1
      have hafter : get_schedule (storeStep gw cn now st s) s.id =
          some { s with last_run := some now } := by
        rw [hstep, hupd]; rfl
      rw [List.foldl_cons]
      rw [foldStore_other gw cn now L (storeStep gw cn now st s) s.id ?hother, hafter]
      case hother =>
        intro x hx heq
        exact hnd.1 (heq ▸ List.mem_map_of_mem _ hx)
    · have hna : s.id ≠ a.id := by
        intro heq
        exact hnd.1 (heq ▸ List.mem_map_of_mem _ hs2)
      rw [List.foldl_cons]
      exact ih (storeStep gw cn now st a) s hs2 hnd.2
        (by rw [storeStep_other gw cn now st a s.id hna]; exact hget) hfail

/-! ## Cron calculator lemmas -/

theorem cronSearch_some (e : CronExpr) :
    ∀ (fuel t u : Nat), cronSearch e fuel t = some u →
      t < u ∧ cronMatches e u = true ∧ ∀ s, t < s → s < u → cronMatches e s = false := by
  intro fuel
  induction fuel with
  | zero => intro t u h; cases h
  | succ fuel ih =>
    intro t u h
    unfold cronSearch at h
    by_cases hm : cronMatches e (t + 1) = true
    · rw [if_pos hm] at h
      cases h
      exact ⟨Nat.lt_succ_self t, hm, fun s h1 h2 => absurd (Nat.lt_of_lt_of_le h2 h1) (Nat.lt_irrefl _)⟩
    · rw [if_neg hm] at h
      obtain ⟨h1, h2, h3⟩ := ih (t + 1) u h
      refine ⟨Nat.lt_of_succ_lt h1, h2, fun s hs1 hs2 => ?_⟩
      rcases Nat.lt_or_ge s (t + 2) with hlt | hge
      · have : s = t + 1 := by omega
        subst this
        exact Bool.not_eq_true _ ▸ (Bool.eq_false_iff.mpr hm)
      · exact h3 s (by omega) hs2

theorem cronSearch_none (e : CronExpr) :
    ∀ (fuel t : Nat), cronSearch e fuel t = none →
      ∀ s, t < s → s ≤ t + fuel → cronMatches e s = false := by
  intro fuel
  induction fuel with
  | zero => intro t _ s h1 h2; omega
  | succ fuel ih =>
    intro t h s h1 h2
    unfold cronSearch at h
    by_cases hm : cronMatches e (t + 1) = true
    · rw [if_pos hm] at h; cases h
    · rw [if_neg hm] at h
      rcases Nat.lt_or_ge s (t + 2) with hlt | hge
      · have : s = t + 1 := by omega
        subst this
        exact Bool.eq_false_iff.mpr hm
      · exact ih (t + 1) h s (by omega) (by omega)

theorem daysInMonth_pos (y m : Nat) : 1 ≤ daysInMonth y m := by
  unfold daysInMonth
  split
  · split
    · omega
    · omega
  · split
    · omega
    · omega

/-- The calendar invariant: months 1-12, days 1 to the month length. -/
def DateValid (d : Date) : Prop :=
  1 ≤ d.month ∧ d.month ≤ 12 ∧ 1 ≤ d.day ∧ d.day ≤ daysInMonth d.year d.month

theorem nextDay_valid (d : Date) (h : DateValid d) : DateValid (nextDay d) := by
  obtain ⟨h1, h2, h3, h4⟩ := h
  have h12 : (1 : Nat) ≤ 12 := by omega
  unfold nextDay
  by_cases hd : d.day < daysInMonth d.year d.month
  · rw [if_pos hd]
    exact ⟨h1, h2, Nat.le_succ_of_le h3, hd⟩
  · rw [if_neg hd]
    by_cases hm : d.month < 12
    · rw [if_pos hm]
      exact ⟨Nat.le_succ_of_le h1, hm, Nat.le_refl 1, daysInMonth_pos d.year (d.month + 1)⟩
    · rw [if_neg hm]
      exact ⟨Nat.le_refl 1, h12, Nat.le_refl 1, daysInMonth_pos (d.year + 1) 1⟩

theorem dateOfDay_valid (n : Nat) : DateValid (dateOfDay n) := by
  induction n with
  | zero => exact ⟨by decide, by decide, by decide, by decide⟩
  | succ n ih => exact nextDay_valid _ ih

theorem daysInMonth_feb_le (y : Nat) : daysInMonth y 2 ≤ 29 := by
  unfold daysInMonth
  split
  · split
    · omega
    · omega
  · omega

/-- A syntactically valid but unsatisfiable cron expression: minute 0 of
hour 0 on day 31 of February, any weekday. -/
def feb31 : CronExpr := ⟨[0], [0], [31], [2], [0, 1, 2, 3, 4, 5, 6]⟩

theorem feb31_no_match (t : Nat) : cronMatches feb31 t = false := by
  rw [Bool.eq_false_iff]
  intro h
  unfold cronMatches at h
  simp only [Bool.and_eq_true, decide_eq_true_eq] at h
  obtain ⟨⟨⟨⟨_, _⟩, hday⟩, hmonth⟩, _⟩ := h
  have hday31 : (dateOfDay (t / 1440)).day = 31 := by simpa [feb31] using hday
  have hmonth2 : (dateOfDay (t / 1440)).month = 2 := by simpa [feb31] using hmonth
  have hv := (dateOfDay_valid (t / 1440)).2.2.2
  rw [hday31, hmonth2] at hv
  have hle := daysInMonth_feb_le (dateOfDay (t / 1440)).year
  omega

/-! ## Claim C6 -/

/-- C6 (counterexample): the expression with minute 0, hour 0, day-of-month
31, month 2 and any weekday is a valid five-field cron expression, yet no
instant whatsoever matches it (February never has a day 31), so compute_next
cannot return an instant strictly greater than t matching it; the search
yields none, where the croniter library raises. This refutes the claim as
stated for e = feb31 and t = 0. -/
theorem cron_claim_false_on_feb31 :
    validCron feb31 = true ∧ (∀ t, cronMatches feb31 t = false) ∧
    cron_compute_next feb31 0 = none := by
  refine ⟨by decide, feb31_no_match, ?_⟩
  unfold cron_compute_next
  cases h : cronSearch feb31 cronHorizon 0 with
  | none => rfl
  | some u =>
    have hm := (cronSearch_some feb31 cronHorizon 0 u h).2.1
    rw [feb31_no_match u] at hm
    cases hm

/-- C6 (amended): for every valid five-field cron expression e and every
instant t such that e matches at least one instant in the 400-year search
horizon after t, compute_next(Cron, e, t) returns an instant strictly
greater than t that matches e, and no instant strictly greater than t that
matches e is smaller. -/
theorem cron_compute_next_minimal (e : CronExpr) (t : Nat) (hv : validCron e = true)
    (hex : ∃ s, t < s ∧ s ≤ t + cronHorizon ∧ cronMatches e s = true) :
    ∃ u, cron_compute_next e t = some u ∧ t < u ∧ cronMatches e u = true ∧
      ∀ s, t < s → cronMatches e s = true → u ≤ s := by
  obtain ⟨s0, hs1, hs2, hs3⟩ := hex
  unfold cron_compute_next
  cases h : cronSearch e cronHorizon t with
  | none =>
    have hc := cronSearch_none e cronHorizon t h s0 hs1 hs2
    rw [hs3] at hc
    cases hc
  | some u =>
    obtain ⟨h1, h2, h3⟩ := cronSearch_some e cronHorizon t u h
    refine ⟨u, rfl, h1, h2, fun s hst hsm => ?_⟩
    by_contra hlt
    push_neg at hlt
    rw [h3 s hst hlt] at hsm
    cases hsm

/-- The all-wildcard expression, every minute of every day. -/
def cronAllFields : CronExpr :=
  ⟨List.range 60, List.range 24, List.range' 1 31, List.range' 1 12, List.range 7⟩

theorem cron_compute_next_minimal_witness :
    validCron cronAllFields = true ∧
    (0 < 1 ∧ 1 ≤ 0 + cronHorizon ∧ cronMatches cronAllFields 1 = true) ∧
    (∃ u, cron_compute_next cronAllFields 0 = some u ∧ 0 < u ∧
      cronMatches cronAllFields u = true ∧
      ∀ s, 0 < s → cronMatches cronAllFields s = true → u ≤ s) :=
  ⟨by decide, ⟨by decide, by decide, by decide⟩,
   cron_compute_next_minimal cronAllFields 0 (by decide) ⟨1, by decide, by decide, by decide⟩⟩

/-! ## Concrete fixtures -/

def gwOk : Gateway := fun _ _ => DeliveryOutcome.ok

def gwFailed : Gateway := fun _ _ => DeliveryOutcome.failed

def gwRaise : Gateway := fun _ _ => DeliveryOutcome.raised "boom"

def cnOk : String → Nat → Except String Nat := fun _ t => Except.ok (t + 1)

/-- A store holding one once schedule, registered for instant 100. -/
def onceStore : Store :=
  (add_schedule emptyStore "agent-1" "hello" "once" "2030-01-01T00:00:00Z" 100 0).1

def onceRow : PromptSchedule :=
  ⟨1, "agent-1", "hello", "once", "2030-01-01T00:00:00Z", 100, true, 0, none⟩

/-- A store holding one once schedule due at 50, created at 10. -/
def onceStore2 : Store := (add_schedule emptyStore "agent-2" "hi" "once" "T2" 50 10).1

/-- A store holding one interval schedule due at 40. -/
def dueStore : Store := (add_schedule emptyStore "agent-4" "ping" "interval" "30s" 40 0).1

def dueRow : PromptSchedule := ⟨1, "agent-4", "ping", "interval", "30s", 40, true, 0, none⟩

/-! ## Claim C1 -/

/-- C1 (code evidence): a Once schedule registered for instant 100 carries
next_run = 100 before execution; but on a pass at instant 200 in which the
gateway reports success, the engine does not deactivate it: reading the
nonexistent repetition_count attribute raises AttributeError, the result
records delivered = false with that error, and the store is left entirely
unchanged (still active, next_run still 100), contradicting the claimed
active = false, next_due_at = None, repetition_count = 1 outcome. -/
theorem once_success_pass_leaves_schedule_active :
    get_schedule onceStore 1 = some onceRow ∧
    (execute_due_prompts gwOk cnOk 200 onceStore).1 =
      [{ id := 1, agent_id := "agent-1", delivered := false,
         error := some repetitionCountAttrError, next_run := some 100 }] ∧
    (execute_due_prompts gwOk cnOk 200 onceStore).2 = onceStore :=
  ⟨rfl, rfl, rfl⟩

/-! ## Claim C2 -/

/-- Arguments of the spec scenario: an interval schedule every 1s bounded by
max_repetitions = 2. -/
def regArgsBounded : RegisterArgs :=
  { agent_id := some "agent-123", prompt := some "p", every := some "1s",
    max_repetitions := some 2, skip_validation := true }

/-- C2 (code evidence): the bounded-interval scenario of the spec cannot
even be set up: registering with every = 1s and max_repetitions = 2 passes
all validation but the add_schedule call raises TypeError (db.add_schedule
accepts no max_repetitions keyword), so registration returns an error and
the store gains no schedule; no schedule with a repetition cap can exist,
and the exhaustion transition is unreachable (the engine would raise
AttributeError on the missing repetition_count column anyway). -/
theorem bounded_interval_scenario_unreachable :
    register_prompt none (fun _ => Except.ok 0) (fun _ => true) cnOk 0 emptyStore regArgsBounded =
      (RegResult.err ("Failed to register prompt: " ++ addScheduleTypeError), emptyStore) :=
  rfl

/-! ## Claim C3 -/

/-- C3: whenever register_prompt passes its argument and schedule
validation (registerValidate succeeds), the add_schedule call raises
TypeError because db.add_schedule accepts no max_repetitions keyword, so
register_prompt returns an error object and the store is unchanged — no
schedule record is ever created. -/
theorem register_prompt_add_schedule_incompatible
    (validateResult : Option String) (parseDate : String → Except String Nat)
    (cronValid : String → Bool) (croniterNext : String → Nat → Except String Nat)
    (now : Nat) (st : Store) (args : RegisterArgs) (v : String × String × Nat)
    (h : registerValidate validateResult parseDate cronValid croniterNext now args =
      Except.ok v) :
    (register_prompt validateResult parseDate cronValid croniterNext now st args).1 =
      RegResult.err ("Failed to register prompt: " ++ addScheduleTypeError) ∧
    (register_prompt validateResult parseDate cronValid croniterNext now st args).2 = st := by
  unfold register_prompt
  rw [h]
  exact ⟨rfl, rfl⟩

def regArgsOnce : RegisterArgs :=
  { agent_id := some "a", prompt := some "p", time := some "2030-01-01",
    skip_validation := true }

theorem register_prompt_add_schedule_incompatible_witness :
    registerValidate none (fun _ => Except.ok 100) (fun _ => true) cnOk 0 regArgsOnce =
      Except.ok ("once", "2030-01-01", 100) ∧
    ((register_prompt none (fun _ => Except.ok 100) (fun _ => true) cnOk 0 emptyStore
        regArgsOnce).1 =
      RegResult.err ("Failed to register prompt: " ++ addScheduleTypeError) ∧
     (register_prompt none (fun _ => Except.ok 100) (fun _ => true) cnOk 0 emptyStore
        regArgsOnce).2 = emptyStore) :=
  ⟨rfl, register_prompt_add_schedule_incompatible none (fun _ => Except.ok 100)
    (fun _ => true) cnOk 0 emptyStore regArgsOnce ("once", "2030-01-01", 100) rfl⟩

/-! ## Claim C5 -/

/-- C5 (code evidence): on a pass at instant 60 over a due once schedule,
a successful delivery leaves last_run untouched (the AttributeError of the
success path aborts before update_schedule), while a failed delivery does
record last_run = 60 — so last_run is not recorded regardless of outcome as
claimed; it is recorded only on failure. -/
theorem last_run_not_recorded_on_success :
    get_due_schedules onceStore2 60 = [⟨1, "agent-2", "hi", "once", "T2", 50, true, 10, none⟩] ∧
    (execute_due_prompts gwOk cnOk 60 onceStore2).2 = onceStore2 ∧
    (get_schedule (execute_due_prompts gwOk cnOk 60 onceStore2).2 1).map
      (fun s => s.last_run) = some none ∧
    (get_schedule (execute_due_prompts gwFailed cnOk 60 onceStore2).2 1).map
      (fun s => s.last_run) = some (some 60) :=
  ⟨rfl, rfl, rfl, rfl⟩

/-! ## Claim C9 -/

/-- C9: an execution pass produces exactly one result per due schedule,
each depending only on that schedule (so an exception or failure while
processing one schedule never prevents the remaining due schedules from
being processed), and a failure that escapes a schedule attempt is captured
in that schedule result error field. -/
theorem execute_pass_isolates_failures (gw : Gateway)
    (cn : String → Nat → Except String Nat) (now : Nat) (st : Store) :
    (execute_due_prompts gw cn now st).1 =
      (get_due_schedules st now).map (resultOf gw cn now) ∧
    ∀ s e, executeAttempt gw cn now s = Except.error e →
      resultOf gw cn now s =
        { id := s.id, agent_id := s.agent_id, delivered := false,
          error := some e, next_run := some s.next_run } := by
  constructor
  · unfold execute_due_prompts
    rw [fold_pair]
    simp
  · intro s e h
    rw [resultOf_error gw cn now s e h]
    rfl

theorem execute_pass_isolates_failures_witness :
    (execute_due_prompts gwRaise cnOk 50 dueStore).1 =
      (get_due_schedules dueStore 50).map (resultOf gwRaise cnOk 50) ∧
    resultOf gwRaise cnOk 50 dueRow =
      { id := 1, agent_id := "agent-4", delivered := false,
        error := some "boom", next_run := some 40 } :=
  ⟨(execute_pass_isolates_failures gwRaise cnOk 50 dueStore).1,
   (execute_pass_isolates_failures gwRaise cnOk 50 dueStore).2 dueRow "boom" rfl⟩

/-! ## Claim C4 -/

/-- C4: for every due schedule whose delivery attempt fails, the pass
appends a result with delivered = false, the fixed delivery error, and the
unchanged next_run; and the persisted record keeps next_run and active
unchanged, only last_run being set to the reference instant, so the
schedule is retried on the next cycle. -/
theorem delivery_failure_leaves_schedule_for_retry (gw : Gateway)
    (cn : String → Nat → Except String Nat) (now : Nat) (st : Store) (s : PromptSchedule)
    (hmem : s ∈ get_due_schedules st now)
    (hnd : (st.schedules.map (fun x => x.id)).Nodup)
    (hfail : gw s.agent_id s.prompt_text = DeliveryOutcome.failed) :
    resultOf gw cn now s =
      { id := s.id, agent_id := s.agent_id, delivered := false,
        error := some "Failed to deliver prompt", next_run := some s.next_run } ∧
    resultOf gw cn now s ∈ (execute_due_prompts gw cn now st).1 ∧
    get_schedule (execute_due_prompts gw cn now st).2 s.id =
      some { s with last_run := some now } := by
  have hres : resultOf gw cn now s =
      { id := s.id, agent_id := s.agent_id, delivered := false,
        error := some "Failed to deliver prompt", next_run := some s.next_run } := by
    unfold resultOf
    rw [executeAttempt_failed gw cn now s hfail]
  have hsub : s ∈ st.schedules := List.mem_of_mem_filter hmem
  have hfold := fold_pair gw cn now (get_due_schedules st now) [] st
  have hduend : ((get_due_schedules st now).map (fun x => x.id)).Nodup := by
    have hsl : List.Sublist (get_due_schedules st now) st.schedules := List.filter_sublist _
    exact List.Nodup.sublist (List.Sublist.map (fun x => x.id) hsl) hnd
  have hget : get_schedule st s.id = some s := find_of_mem_nodup st.schedules hnd s hsub
  refine ⟨hres, ?_, ?_⟩
  · unfold execute_due_prompts
    rw [hfold]
    simp only [List.nil_append]
    exact List.mem_map_of_mem _ hmem
  · unfold execute_due_prompts
    rw [hfold]
    exact foldStore_failed gw cn now (get_due_schedules st now) st s hmem hduend hget hfail

theorem delivery_failure_leaves_schedule_for_retry_witness :
    (dueRow ∈ get_due_schedules dueStore 50) ∧
    ((dueStore.schedules.map (fun x => x.id)).Nodup) ∧
    (resultOf gwFailed cnOk 50 dueRow =
      { id := 1, agent_id := "agent-4", delivered := false,
        error := some "Failed to deliver prompt", next_run := some 40 } ∧
     resultOf gwFailed cnOk 50 dueRow ∈ (execute_due_prompts gwFailed cnOk 50 dueStore).1 ∧
     get_schedule (execute_due_prompts gwFailed cnOk 50 dueStore).2 1 =
      some { dueRow with last_run := some 50 }) :=
  ⟨by decide, by decide,
   delivery_failure_leaves_schedule_for_retry gwFailed cnOk 50 dueStore dueRow
     (by decide) (by decide) rfl⟩

/-! ## Claim C7 -/

/-- C7: for every interval string d with unit suffix s, m or h over a digit
count, or a bare digit string meaning seconds, and every reference instant
t, the interval calculator returns t plus the parsed duration (n, 60n,
3600n seconds respectively). -/
theorem interval_compute_next (d : String) (n t : Nat)
    (cn : String → Nat → Except String Nat) (sch : PromptSchedule)
    (hty : sch.schedule_type = "interval") (hval : sch.schedule_value = d) :
    (strEndsWithChar d 's' = true → strToNat? (strDropLast d) = some n →
      intervalSeconds d = Except.ok n ∧
      calculate_next_run_for_schedule cn t sch = Except.ok (some (t + n))) ∧
    (strEndsWithChar d 's' = false → strEndsWithChar d 'm' = true →
      strToNat? (strDropLast d) = some n →
      intervalSeconds d = Except.ok (n * 60) ∧
      calculate_next_run_for_schedule cn t sch = Except.ok (some (t + n * 60))) ∧
    (strEndsWithChar d 's' = false → strEndsWithChar d 'm' = false →
      strEndsWithChar d 'h' = true → strToNat? (strDropLast d) = some n →
      intervalSeconds d = Except.ok (n * 3600) ∧
      calculate_next_run_for_schedule cn t sch = Except.ok (some (t + n * 3600))) ∧
    (strEndsWithChar d 's' = false → strEndsWithChar d 'm' = false →
      strEndsWithChar d 'h' = false → strToNat? d = some n →
      intervalSeconds d = Except.ok n ∧
      calculate_next_run_for_schedule cn t sch = Except.ok (some (t + n))) := by
  have hcalc : ∀ k, intervalSeconds d = Except.ok k →
      calculate_next_run_for_schedule cn t sch = Except.ok (some (t + k)) := by
    intro k hk
    unfold calculate_next_run_for_schedule
    rw [hty, hval, hk]
    rfl
  refine ⟨?_, ?_, ?_, ?_⟩
  · intro h1 hp
    have hint : intervalSeconds d = Except.ok n := by
      unfold intervalSeconds pyInt
      rw [h1, hp]
      rfl
    exact ⟨hint, hcalc n hint⟩
  · intro h1 h2 hp
    have hint : intervalSeconds d = Except.ok (n * 60) := by
      unfold intervalSeconds pyInt
      rw [h1, h2, hp]
      rfl
    exact ⟨hint, hcalc (n * 60) hint⟩
  · intro h1 h2 h3 hp
    have hint : intervalSeconds d = Except.ok (n * 3600) := by
      unfold intervalSeconds pyInt
      rw [h1, h2, h3, hp]
      rfl
    exact ⟨hint, hcalc (n * 3600) hint⟩
  · intro h1 h2 h3 hp
    have hint : intervalSeconds d = Except.ok n := by
      unfold intervalSeconds pyInt
      rw [h1, h2, h3, hp]
      rfl
    exact ⟨hint, hcalc n hint⟩

def sched45 : PromptSchedule := ⟨1, "a", "p", "interval", "45", 0, true, 0, none⟩

theorem interval_compute_next_witness :
    intervalSeconds "45" = Except.ok 45 ∧
    calculate_next_run_for_schedule cnOk 0 sched45 = Except.ok (some 45) :=
  (interval_compute_next "45" 45 0 cnOk sched45 rfl rfl).2.2.2
    (by decide) (by decide) (by decide) (by decide)

/-! ## Claim C10 -/

/-- C10 (amended): for every existing schedule id, calling cancel twice
never errors: both calls return the same plain success result and leave
active = false; the second call does not distinguish the already-inactive
case (it repeats the generic cancelled message rather than reporting
already inactive, and the not-found error is reserved for unknown ids). -/
theorem cancel_prompt_idempotent (st : Store) (idStr : String) (i : Nat) (s : PromptSchedule)
    (hne : idStr.data.isEmpty = false) (hp : strToNat? idStr = some i)
    (hs : get_schedule st i = some s) :
    ∃ st1 st2,
      cancel_prompt st (some idStr) =
        (CancelResult.ok i ("Schedule " ++ toString i ++ " cancelled"), st1) ∧
      cancel_prompt st1 (some idStr) =
        (CancelResult.ok i ("Schedule " ++ toString i ++ " cancelled"), st2) ∧
      get_schedule st1 i = some { s with active := false } ∧
      get_schedule st2 i = some { s with active := false } := by
  have happ : applyUpdate s { active := some false } = { s with active := false } := rfl
  have h1 := update_schedule_of_get st i { active := some false } s hs
  rcases hupd1 : update_schedule st i { active := some false } with ⟨st1, b1⟩
  rw [hupd1] at h1
  have hb1 : b1 = true := h1.1
  subst hb1
  have hget1 : get_schedule st1 i = some { s with active := false } := by
    have := h1.2.1
    rw [happ] at this
    exact this
  have h2 := update_schedule_of_get st1 i { active := some false }
    { s with active := false } hget1
  rcases hupd2 : update_schedule st1 i { active := some false } with ⟨st2, b2⟩
  rw [hupd2] at h2
  have hb2 : b2 = true := h2.1
  subst hb2
  have hget2 : get_schedule st2 i = some { s with active := false } := h2.2.1
  refine ⟨st1, st2, ?_, ?_, hget1, hget2⟩
  · unfold cancel_prompt cancel_schedule
    simp [hne, hp, hupd1]
  · unfold cancel_prompt cancel_schedule
    simp [hne, hp, hupd2]

/-- A store holding one active once schedule with id 1. -/
def cancelStore : Store := (add_schedule emptyStore "agent-9" "msg" "once" "T9" 500 0).1

/-- C10 (counterexample): cancelling schedule 1 twice succeeds both times,
and the second call returns exactly the same plain success result as the
first (the generic cancelled message); it does not report that the schedule
is already inactive, refuting the claimed distinct second-call report. -/
theorem second_cancel_reports_plain_success :
    (cancel_prompt cancelStore (some "1")).1 = CancelResult.ok 1 "Schedule 1 cancelled" ∧
    (cancel_prompt (cancel_prompt cancelStore (some "1")).2 (some "1")).1 =
      CancelResult.ok 1 "Schedule 1 cancelled" ∧
    (cancel_prompt (cancel_prompt cancelStore (some "1")).2 (some "1")).1 =
      (cancel_prompt cancelStore (some "1")).1 :=
  ⟨rfl, rfl, rfl⟩

def cancelRow : PromptSchedule := ⟨1, "agent-9", "msg", "once", "T9", 500, true, 0, none⟩

theorem cancel_prompt_idempotent_witness :
    ("1" : String).data.isEmpty = false ∧ strToNat? "1" = some 1 ∧
    get_schedule cancelStore 1 = some cancelRow ∧
    (∃ st1 st2,
      cancel_prompt cancelStore (some "1") =
        (CancelResult.ok 1 ("Schedule " ++ toString 1 ++ " cancelled"), st1) ∧
      cancel_prompt st1 (some "1") =
        (CancelResult.ok 1 ("Schedule " ++ toString 1 ++ " cancelled"), st2) ∧
      get_schedule st1 1 = some { cancelRow with active := false } ∧
      get_schedule st2 1 = some { cancelRow with active := false }) :=
  ⟨rfl, rfl, rfl, cancel_prompt_idempotent cancelStore "1" 1 cancelRow rfl rfl rfl⟩

/-! ## Claim C8 -/

/-- C8: registering a Once schedule whose parsed instant is not strictly
after the current instant, or an Interval schedule whose explicit start_at
parses to an instant not strictly after the current instant, fails with the
corresponding validation error, and the store is unchanged — no store
mutation happens before the failure. -/
theorem registration_rejects_past_instant
    (validateResult : Option String) (parseDate : String → Except String Nat)
    (cronValid : String → Bool) (croniterNext : String → Nat → Except String Nat)
    (now : Nat) (st : Store) (args : RegisterArgs)
    (hA : truthyStr args.agent_id = true) (hP : truthyStr args.prompt = true)
    (hval : args.skip_validation = true ∨ validateResult = none)
    (hcase :
      (∃ ts t0, args.time = some ts ∧ ts.data.isEmpty = false ∧ args.cron = none ∧
        args.every = none ∧ parseDate ts = Except.ok t0 ∧ t0 ≤ now) ∨
      (∃ es sa k t0, args.every = some es ∧ es.data.isEmpty = false ∧ args.time = none ∧
        args.cron = none ∧ intervalSeconds es = Except.ok k ∧ args.start_at = some sa ∧
        sa.data.isEmpty = false ∧ parseDate sa = Except.ok t0 ∧ t0 ≤ now)) :
    ((register_prompt validateResult parseDate cronValid croniterNext now st args).1 =
        RegResult.err "Scheduled time must be in the future" ∨
     (register_prompt validateResult parseDate cronValid croniterNext now st args).1 =
        RegResult.err "Start time must be in the future") ∧
    (register_prompt validateResult parseDate cronValid croniterNext now st args).2 = st := by
  have hvg : (if args.skip_validation then none else validateResult) = (none : Option String) := by
    rcases hval with h | h
    · simp [h]
    · cases args.skip_validation <;> simp [h]
  rcases hcase with ⟨ts, t0, hts, htne, hcr, hev, hpd, hle⟩ |
      ⟨es, sa, k, t0, hes, hesne, hti, hcr, hint, hsa, hsane, hpd, hle⟩
  · have h1 : truthyStr args.time = true := by rw [hts]; simp [truthyStr, htne]
    have h2 : truthyStr args.cron = false := by rw [hcr]; rfl
    have h3 : truthyStr args.every = false := by rw [hev]; rfl
    have hob : onceBranch parseDate now ts = Except.error "Scheduled time must be in the future" := by
      unfold onceBranch
      rw [hpd]
      simp [hle]
    have hgd : args.time.getD "" = ts := by rw [hts]; rfl
    have hrv : registerValidate validateResult parseDate cronValid croniterNext now args =
        Except.error "Scheduled time must be in the future" := by
      unfold registerValidate
      simp [hA, hP, h1, h2, h3, hvg, hgd, hob]
    unfold register_prompt
    rw [hrv]
    exact ⟨Or.inl rfl, rfl⟩
  · have h1 : truthyStr args.time = false := by rw [hti]; rfl
    have h2 : truthyStr args.cron = false := by rw [hcr]; rfl
    have h3 : truthyStr args.every = true := by rw [hes]; simp [truthyStr, hesne]
    have heb : everyBranch parseDate now es (some sa) =
        Except.error "Start time must be in the future" := by
      unfold everyBranch
      rw [hint]
      simp [hsane, hpd, if_pos hle]
    have hgd : args.every.getD "" = es := by rw [hes]; rfl
    have hrv : registerValidate validateResult parseDate cronValid croniterNext now args =
        Except.error "Start time must be in the future" := by
      unfold registerValidate
      simp [hA, hP, h1, h2, h3, hvg, hgd, hsa, heb]
    unfold register_prompt
    rw [hrv]
    exact ⟨Or.inr rfl, rfl⟩

def regArgsPast : RegisterArgs :=
  { agent_id := some "a", prompt := some "p", time := some "2020-01-01",
    skip_validation := true }

theorem registration_rejects_past_instant_witness :
    ((register_prompt none (fun _ => Except.ok 5) (fun _ => true) cnOk 10 emptyStore
        regArgsPast).1 = RegResult.err "Scheduled time must be in the future" ∨
     (register_prompt none (fun _ => Except.ok 5) (fun _ => true) cnOk 10 emptyStore
        regArgsPast).1 = RegResult.err "Start time must be in the future") ∧
    (register_prompt none (fun _ => Except.ok 5) (fun _ => true) cnOk 10 emptyStore
        regArgsPast).2 = emptyStore :=
  registration_rejects_past_instant none (fun _ => Except.ok 5) (fun _ => true) cnOk 10
    emptyStore regArgsPast rfl rfl (Or.inl rfl)
    (Or.inl ⟨"2020-01-01", 5, rfl, rfl, rfl, rfl, rfl, by decide⟩)

end PromptYoSelf
